import Mathlib

/-!
Verification of the nasa-safeout-api aggregation engine.

This file gives a shallow embedding, in Lean 4, of the parts of the
repository `nasa-safeout-api` that the verified properties talk about:

* `app/routers/environmental.py` — the per-source accounting loop of the
  aggregation endpoint (`get_environmental_data`);
* `app/services/openaq.py` — `OpenAQService.calculate_aqi`;
* `app/services/firms.py` — CSV parsing, confidence categorisation and
  fire deduplication;
* `app/services/data_processor.py` — `DataProcessor.get_fire_history_data`
  and the temperature fields of `get_weather_data`;
* `app/services/earthdata.py` — the process-wide authentication state
  machine (`ensure_authenticated`, `_choose_next_auth_method`,
  `_authenticate_once`) and the MERRA-2 wind/temperature derivations;
* `app/utils/geo_utils.py` — `calculate_bounding_box` and
  `wind_components_to_speed_direction`.

Python floats are modelled as rationals (`ℚ`) where the code only does
field arithmetic and comparisons, and as reals (`ℝ`) where transcendental
functions (`cos`, `atan2`, `sqrt`) are involved.  Network and file I/O
are abstracted as function parameters supplying the provider responses.
Wall-clock timestamps are abstracted as explicit parameters.
-/

namespace SafeoutAPI

/-! ### Router accounting (`app/routers/environmental.py`, lines 50-176)

The endpoint body runs six independent `try` blocks, one per source.
Each block first increments `data_sources_queried`, then fetches; a
truthy result increments `data_sources_successful`, a falsy result
appends the source's fixed "unavailable" warning, and an exception is
caught and appends the source's error-prefixed message.  The outcome of
one fetch (with the network abstracted away) is one of those three. -/

/-- Outcome of one source fetch as seen by the router: a truthy value,
a falsy value (`None` or empty), or a caught exception with message. -/
inductive FetchOutcome where
  | success
  | empty
  | failed (msg : String)
deriving DecidableEq

/-- The `ResponseMetadata` counters and warnings built by the endpoint. -/
structure RespMeta where
  queried : Nat
  successful : Nat
  warnings : List String
deriving DecidableEq

def initMeta : RespMeta := ⟨0, 0, []⟩

/-- One `try` block of `get_environmental_data`: increment `queried`,
then either count a success, append the fixed unavailable-warning, or
append the error prefix with the exception text. -/
def fetchSource (unavailableMsg errPrefix : String) (m : RespMeta)
    (o : FetchOutcome) : RespMeta :=
  let m1 : RespMeta := { m with queried := m.queried + 1 }
  match o with
  | .success => { m1 with successful := m1.successful + 1 }
  | .empty => { m1 with warnings := m1.warnings ++ [unavailableMsg] }
  | .failed msg => { m1 with warnings := m1.warnings ++ [errPrefix ++ msg] }

/-- The metadata produced by `get_environmental_data` after its six
source blocks (air quality, fire history, precipitation, weather,
UV index, GIBS imagery) settle with the given outcomes. -/
def get_environmental_data (o₁ o₂ o₃ o₄ o₅ o₆ : FetchOutcome) : RespMeta :=
  fetchSource "GIBS satellite imagery unavailable" "GIBS imagery error: "
    (fetchSource "UV index data unavailable (requires NASA Earthdata credentials)" "UV index data error: "
      (fetchSource "Weather data unavailable (requires NASA Earthdata credentials)" "Weather data error: "
        (fetchSource "Precipitation data unavailable (requires NASA Earthdata credentials)" "Precipitation data error: "
          (fetchSource "Fire history data unavailable" "Fire history data error: "
            (fetchSource "Air quality data unavailable" "Air quality data error: "
              initMeta o₁)
            o₂)
          o₃)
        o₄)
      o₅)
    o₆

/-! ### AQI categorisation (`app/services/openaq.py`, lines 140-207) -/

/-- `OpenAQService.calculate_aqi`: fixed breakpoint tables per parameter. -/
def calculate_aqi (parameter : String) (value : ℚ) : String :=
  if parameter = "pm25" then
    if value ≤ 12 then "good"
    else if value ≤ 35.4 then "moderate"
    else if value ≤ 55.4 then "unhealthy_sensitive"
    else if value ≤ 150.4 then "unhealthy"
    else if value ≤ 250.4 then "very_unhealthy"
    else "hazardous"
  else if parameter = "pm10" then
    if value ≤ 54 then "good"
    else if value ≤ 154 then "moderate"
    else if value ≤ 254 then "unhealthy_sensitive"
    else if value ≤ 354 then "unhealthy"
    else if value ≤ 424 then "very_unhealthy"
    else "hazardous"
  else if parameter = "no2" then
    if value ≤ 53 then "good"
    else if value ≤ 100 then "moderate"
    else if value ≤ 360 then "unhealthy_sensitive"
    else if value ≤ 649 then "unhealthy"
    else if value ≤ 1249 then "very_unhealthy"
    else "hazardous"
  else if parameter = "o3" then
    if value ≤ 54 then "good"
    else if value ≤ 70 then "moderate"
    else if value ≤ 85 then "unhealthy_sensitive"
    else if value ≤ 105 then "unhealthy"
    else if value ≤ 200 then "very_unhealthy"
    else "hazardous"
  else "unknown"

theorem fetchSource_queried (u e : String) (m : RespMeta) (o : FetchOutcome) :
    (fetchSource u e m o).queried = m.queried + 1 := by
  cases o <;> rfl

theorem fetchSource_successful (u e : String) (m : RespMeta) (o : FetchOutcome) :
    (fetchSource u e m o).successful
      = m.successful + (if o = .success then 1 else 0) := by
  cases o <;> simp [fetchSource]

theorem fetchSource_warnings_length (u e : String) (m : RespMeta) (o : FetchOutcome) :
    (fetchSource u e m o).warnings.length
      = m.warnings.length + (if o = .success then 0 else 1) := by
  cases o <;> simp [fetchSource]

/-- C1. After the six source fetches of `get_environmental_data` settle,
`data_sources_queried` is exactly 6 (each source counted once),
`data_sources_queried = data_sources_successful + |warnings|`, hence
`data_sources_queried ≥ data_sources_successful`, and each source whose
fetch did not yield a populated result contributed exactly one warning. -/
theorem C1_source_accounting (o₁ o₂ o₃ o₄ o₅ o₆ : FetchOutcome) :
    (get_environmental_data o₁ o₂ o₃ o₄ o₅ o₆).queried = 6 ∧
    (get_environmental_data o₁ o₂ o₃ o₄ o₅ o₆).queried
      = (get_environmental_data o₁ o₂ o₃ o₄ o₅ o₆).successful
        + (get_environmental_data o₁ o₂ o₃ o₄ o₅ o₆).warnings.length ∧
    (get_environmental_data o₁ o₂ o₃ o₄ o₅ o₆).successful
      ≤ (get_environmental_data o₁ o₂ o₃ o₄ o₅ o₆).queried ∧
    (get_environmental_data o₁ o₂ o₃ o₄ o₅ o₆).warnings.length
      = (if o₁ = .success then 0 else 1) + (if o₂ = .success then 0 else 1)
        + (if o₃ = .success then 0 else 1) + (if o₄ = .success then 0 else 1)
        + (if o₅ = .success then 0 else 1) + (if o₆ = .success then 0 else 1) := by
  simp only [get_environmental_data, fetchSource_queried, fetchSource_successful,
    fetchSource_warnings_length, initMeta, List.length_nil]
  refine ⟨?_, ?_, ?_, ?_⟩ <;> first | trivial | (split_ifs <;> omega)

theorem calculate_aqi_pm25_eq (v : ℚ) : calculate_aqi "pm25" v =
    (if v ≤ 12 then "good" else if v ≤ 35.4 then "moderate"
     else if v ≤ 55.4 then "unhealthy_sensitive" else if v ≤ 150.4 then "unhealthy"
     else if v ≤ 250.4 then "very_unhealthy" else "hazardous") := by
  simp [calculate_aqi]

theorem calculate_aqi_pm10_eq (v : ℚ) : calculate_aqi "pm10" v =
    (if v ≤ 54 then "good" else if v ≤ 154 then "moderate"
     else if v ≤ 254 then "unhealthy_sensitive" else if v ≤ 354 then "unhealthy"
     else if v ≤ 424 then "very_unhealthy" else "hazardous") := by
  simp [calculate_aqi]

theorem calculate_aqi_no2_eq (v : ℚ) : calculate_aqi "no2" v =
    (if v ≤ 53 then "good" else if v ≤ 100 then "moderate"
     else if v ≤ 360 then "unhealthy_sensitive" else if v ≤ 649 then "unhealthy"
     else if v ≤ 1249 then "very_unhealthy" else "hazardous") := by
  simp [calculate_aqi]

theorem calculate_aqi_o3_eq (v : ℚ) : calculate_aqi "o3" v =
    (if v ≤ 54 then "good" else if v ≤ 70 then "moderate"
     else if v ≤ 85 then "unhealthy_sensitive" else if v ≤ 105 then "unhealthy"
     else if v ≤ 200 then "very_unhealthy" else "hazardous") := by
  simp [calculate_aqi]

/-- C7. The AQI breakpoint tables: for `pm25` the category is `good` iff
`v ≤ 12`, `moderate` iff `12 < v ≤ 35.4`, `unhealthy_sensitive` iff
`35.4 < v ≤ 55.4`, `unhealthy` iff `55.4 < v ≤ 150.4`, `very_unhealthy`
iff `150.4 < v ≤ 250.4`, and `hazardous` otherwise; the analogous fixed
tables hold for `pm10`, `no2` and `o3`; any other parameter gives
`unknown` regardless of the value. -/
theorem C7_calculate_aqi_breakpoints (v : ℚ) (p : String) :
    ((calculate_aqi "pm25" v = "good" ↔ v ≤ 12) ∧
     (calculate_aqi "pm25" v = "moderate" ↔ 12 < v ∧ v ≤ 35.4) ∧
     (calculate_aqi "pm25" v = "unhealthy_sensitive" ↔ 35.4 < v ∧ v ≤ 55.4) ∧
     (calculate_aqi "pm25" v = "unhealthy" ↔ 55.4 < v ∧ v ≤ 150.4) ∧
     (calculate_aqi "pm25" v = "very_unhealthy" ↔ 150.4 < v ∧ v ≤ 250.4) ∧
     (calculate_aqi "pm25" v = "hazardous" ↔ 250.4 < v)) ∧
    ((calculate_aqi "pm10" v = "good" ↔ v ≤ 54) ∧
     (calculate_aqi "pm10" v = "moderate" ↔ 54 < v ∧ v ≤ 154) ∧
     (calculate_aqi "pm10" v = "unhealthy_sensitive" ↔ 154 < v ∧ v ≤ 254) ∧
     (calculate_aqi "pm10" v = "unhealthy" ↔ 254 < v ∧ v ≤ 354) ∧
     (calculate_aqi "pm10" v = "very_unhealthy" ↔ 354 < v ∧ v ≤ 424) ∧
     (calculate_aqi "pm10" v = "hazardous" ↔ 424 < v)) ∧
    ((calculate_aqi "no2" v = "good" ↔ v ≤ 53) ∧
     (calculate_aqi "no2" v = "moderate" ↔ 53 < v ∧ v ≤ 100) ∧
     (calculate_aqi "no2" v = "unhealthy_sensitive" ↔ 100 < v ∧ v ≤ 360) ∧
     (calculate_aqi "no2" v = "unhealthy" ↔ 360 < v ∧ v ≤ 649) ∧
     (calculate_aqi "no2" v = "very_unhealthy" ↔ 649 < v ∧ v ≤ 1249) ∧
     (calculate_aqi "no2" v = "hazardous" ↔ 1249 < v)) ∧
    ((calculate_aqi "o3" v = "good" ↔ v ≤ 54) ∧
     (calculate_aqi "o3" v = "moderate" ↔ 54 < v ∧ v ≤ 70) ∧
     (calculate_aqi "o3" v = "unhealthy_sensitive" ↔ 70 < v ∧ v ≤ 85) ∧
     (calculate_aqi "o3" v = "unhealthy" ↔ 85 < v ∧ v ≤ 105) ∧
     (calculate_aqi "o3" v = "very_unhealthy" ↔ 105 < v ∧ v ≤ 200) ∧
     (calculate_aqi "o3" v = "hazardous" ↔ 200 < v)) ∧
    (p ≠ "pm25" → p ≠ "pm10" → p ≠ "no2" → p ≠ "o3" →
      calculate_aqi p v = "unknown") := by
  refine ⟨⟨?_, ?_, ?_, ?_, ?_, ?_⟩, ⟨?_, ?_, ?_, ?_, ?_, ?_⟩,
    ⟨?_, ?_, ?_, ?_, ?_, ?_⟩, ⟨?_, ?_, ?_, ?_, ?_, ?_⟩, ?_⟩ <;>
    first
    | (intro h1 h2 h3 h4
       simp only [calculate_aqi, if_neg h1, if_neg h2, if_neg h3, if_neg h4])
    | (rw [calculate_aqi_pm25_eq] <;> split_ifs <;> simp_all <;>
        first
        | linarith
        | (constructor <;> linarith)
        | (rintro ⟨hc1, hc2⟩ ; linarith)
        | (intro hc ; linarith)
        | (intro hc1 hc2 ; linarith))
    | (rw [calculate_aqi_pm10_eq] <;> split_ifs <;> simp_all <;>
        first
        | linarith
        | (constructor <;> linarith)
        | (rintro ⟨hc1, hc2⟩ ; linarith)
        | (intro hc ; linarith)
        | (intro hc1 hc2 ; linarith))
    | (rw [calculate_aqi_no2_eq] <;> split_ifs <;> simp_all <;>
        first
        | linarith
        | (constructor <;> linarith)
        | (rintro ⟨hc1, hc2⟩ ; linarith)
        | (intro hc ; linarith)
        | (intro hc1 hc2 ; linarith))
    | (rw [calculate_aqi_o3_eq] <;> split_ifs <;> simp_all <;>
        first
        | linarith
        | (constructor <;> linarith)
        | (rintro ⟨hc1, hc2⟩ ; linarith)
        | (intro hc ; linarith)
        | (intro hc1 hc2 ; linarith))

/-- Witness for C7 at concrete inputs. -/
theorem C7_calculate_aqi_witness :
    calculate_aqi "pm25" 12 = "good" ∧ calculate_aqi "co" 10 = "unknown" := by
  exact ⟨((C7_calculate_aqi_breakpoints 12 "co").1.1).mpr (by norm_num),
    (C7_calculate_aqi_breakpoints 10 "co").2.2.2.2
      (by decide) (by decide) (by decide) (by decide)⟩

/-! ### Python helpers used by several services -/

/-- Python truthiness of a float-or-None value: `None` and `0.0` are
falsy, every other float is truthy. -/
def pyTruthy (x : Option ℚ) : Bool :=
  match x with
  | none => false
  | some v => decide (v ≠ 0)

/-- Round-half-to-even on a rational, the tie-breaking rule of Python's
built-in `round`. -/
def roundHalfEven (x : ℚ) : ℤ :=
  let f : ℤ := ⌊x⌋
  let r : ℚ := x - f
  if r < 1/2 then f
  else if 1/2 < r then f + 1
  else if f % 2 = 0 then f else f + 1

/-- Python's `round(x, 2)` modelled on exact rationals. -/
def pyRound2 (x : ℚ) : ℚ := (roundHalfEven (x * 100) : ℚ) / 100

/-- Python's `int(x)` on a float: truncation toward zero. -/
def pyInt (q : ℚ) : ℤ := if 0 ≤ q then ⌊q⌋ else -⌊-q⌋

/-! ### MERRA-2 temperature fields
(`app/services/earthdata.py`, lines 555-565, and
`app/services/data_processor.py`, lines 282-283)

`get_merra2_data` computes
`temp_celsius = variables["T2M"] - 273.15 if variables["T2M"] else None`
and then puts
`"temperature_celsius": round(temp_celsius, 2) if temp_celsius else None`
into its result; `get_weather_data` later derives
`temperature_fahrenheit=celsius_to_fahrenheit(...) if
merra2_data.get("temperature_celsius") else None`.  Both conditions are
Python truthiness tests on a float-or-None. -/

/-- The `temperature_celsius` entry of the `get_merra2_data` result
dictionary, as a function of the extracted `T2M` value. -/
def merra2_temperature_celsius (t2m : Option ℚ) : Option ℚ :=
  let temp_celsius : Option ℚ :=
    if pyTruthy t2m then t2m.map (fun t => t - 273.15) else none
  if pyTruthy temp_celsius then temp_celsius.map pyRound2 else none

/-- `geo_utils.celsius_to_fahrenheit`: `(celsius * 9/5) + 32`. -/
def celsius_to_fahrenheit (celsius : ℚ) : ℚ := celsius * 9 / 5 + 32

/-- The `temperature_fahrenheit` field of the `WeatherData` built by
`DataProcessor.get_weather_data`, as a function of the
`temperature_celsius` entry of the MERRA-2 result dictionary. -/
def weather_temperature_fahrenheit (tc : Option ℚ) : Option ℚ :=
  if pyTruthy tc then tc.map celsius_to_fahrenheit else none

/-- C9. A `T2M` reading of exactly 273.15 K produces
`temperature_celsius = None` (the exact-zero Celsius value is dropped by
the truthiness check), and a `temperature_celsius` of 0 yields
`temperature_fahrenheit = None` rather than the 32 °F that
`celsius_to_fahrenheit` would give, so a legitimate 0 °C reading is
indistinguishable from missing data. -/
theorem C9_zero_celsius_dropped :
    merra2_temperature_celsius (some (273.15 : ℚ)) = none ∧
    weather_temperature_fahrenheit (some 0) = none ∧
    celsius_to_fahrenheit 0 = 32 ∧
    merra2_temperature_celsius none = none := by
  refine ⟨by norm_num [merra2_temperature_celsius, pyTruthy],
    by norm_num [weather_temperature_fahrenheit, pyTruthy],
    by norm_num [celsius_to_fahrenheit],
    by norm_num [merra2_temperature_celsius, pyTruthy]⟩

/-! ### FIRMS fire detections (`app/services/firms.py`) -/

/-- One fire-detection row, after `_parse_csv_response` has coerced the
numeric fields.  `acq_date` is present iff the CSV had that column;
`satellite_source` is the key added by `get_fires_multiple_sources`. -/
structure FireRec where
  latitude : ℚ
  longitude : ℚ
  brightness : ℚ
  frp : ℚ
  confidence : String
  acq_date : Option String
  satellite_source : String
deriving DecidableEq

/-- Splitting a character list on a single separator character, the
semantics of Python's `str.split(sep)` for the one-character separators
(`"\n"`, `","`, `"."`) used by the services.  (Lean's own
`String.splitOn` is not kernel-reducible, so the embedding works on
`List Char`.) -/
def splitOnChar (sep : Char) (cs : List Char) : List (List Char) :=
  cs.foldr (fun c acc =>
    if c = sep then [] :: acc
    else match acc with
      | [] => [[c]]
      | g :: gs => (c :: g) :: gs) [[]]

/-- Python's `str.strip()`: remove leading and trailing whitespace. -/
def pyStrip (cs : List Char) : List Char :=
  ((cs.dropWhile (fun c => c.isWhitespace)).reverse.dropWhile
    (fun c => c.isWhitespace)).reverse

/-- `str.split(sep)` producing `String` pieces. -/
def pySplitS (s : String) (sep : Char) : List String :=
  (splitOnChar sep s.data).map String.mk

/-- ASCII lowercasing of one character (`str.lower` restricted to the
ASCII codes that occur in FIRMS confidence values). -/
def charLower (c : Char) : Char :=
  if 'A' ≤ c ∧ c ≤ 'Z' then Char.ofNat (c.toNat + 32) else c

/-- Python's `str.lower()` on ASCII text. -/
def pyToLower (s : String) : String := String.mk (s.data.map charLower)

/-- Digits of a decimal literal as a natural number; `none` when the
character list is empty or holds a non-digit. -/
def digitsToNat (cs : List Char) : Option ℕ :=
  if cs ≠ [] ∧ cs.all (fun c => c.isDigit) then
    some (cs.foldl (fun n c => n * 10 + (c.toNat - 48)) 0)
  else none

/-- Value of a (possibly empty) all-digit fraction part. -/
def fracToRat (cs : List Char) : ℚ :=
  (cs.foldl (fun n c => n * 10 + (c.toNat - 48)) 0 : ℚ) / (10 : ℚ) ^ cs.length

/-- Python's `float(s)` modelled on plain decimal literals: optional
sign, digits, optional fractional part (`"1"`, `"-27.59"`, `"3."`,
`".5"`).  Exponent/`inf`/`nan` forms, which do not occur in FIRMS CSV
fields, are not modelled and give `none` (row skipped). -/
def parseFloat (s : String) : Option ℚ :=
  let stripped := pyStrip s.data
  let (sign, rest) : ℚ × List Char :=
    match stripped with
    | '-' :: r => (-1, r)
    | '+' :: r => (1, r)
    | r => (1, r)
  match splitOnChar '.' rest with
  | [intPart] => (digitsToNat intPart).map (fun n => sign * n)
  | [ip, fp] =>
    if ip.all (fun c => c.isDigit) ∧ fp.all (fun c => c.isDigit) ∧
        (ip ≠ [] ∨ fp ≠ []) then
      some (sign * ((ip.foldl (fun n c => n * 10 + (c.toNat - 48)) 0 : ℚ) + fracToRat fp))
    else none
  | _ => none

/-- Lookup in the row dictionary built by `dict(zip(header, values))`:
on duplicate column names the last occurrence wins, hence the reversed
association list. -/
def csvGet (header values : List String) (k : String) : Option String :=
  List.lookup k (header.zip values).reverse

/-- One iteration of the row loop of `FIRMSService._parse_csv_response`:
skip the row when the value count differs from the header or when a
numeric coercion fails (`float` would throw `ValueError`); missing
numeric columns default to `0` and a missing confidence column to
`"unknown"`. -/
def parseRow (header : List String) (line : String) : Option FireRec :=
  let values := pySplitS line ','
  if values.length ≠ header.length then none
  else
    let getF : String → Option ℚ := fun k =>
      match csvGet header values k with
      | some s => parseFloat s
      | none => some 0
    match getF "latitude", getF "longitude", getF "brightness", getF "frp" with
    | some la, some lo, some br, some fr =>
      some { latitude := la, longitude := lo, brightness := br, frp := fr,
             confidence := (csvGet header values "confidence").getD "unknown",
             acq_date := csvGet header values "acq_date",
             satellite_source := "" }
    | _, _, _, _ => none

/-- `FIRMSService._parse_csv_response`: strip, split into lines, return
`[]` when there are fewer than two lines, else parse each data row
against the header. -/
def _parse_csv_response (csv_text : String) : List FireRec :=
  match pySplitS (String.mk (pyStrip csv_text.data)) '\n' with
  | [] => []
  | [_] => []
  | headerLine :: rows => rows.filterMap (parseRow (pySplitS headerLine ','))

/-- The duplicate test inside `FIRMSService._deduplicate_fires` with its
default threshold of 1.0 km: approximate planar distance
`sqrt(Δlat² + Δlon²) · 111` below 1. -/
def fireClose (fire unique_fire : FireRec) : Prop :=
  Real.sqrt ((|(fire.latitude : ℝ) - (unique_fire.latitude : ℝ)|) ^ 2 +
      (|(fire.longitude : ℝ) - (unique_fire.longitude : ℝ)|) ^ 2) * 111 < 1

/-- The real-valued duplicate test is equivalent to a rational
comparison against the squared threshold, `111² = 12321`. -/
theorem fireClose_iff (f g : FireRec) :
    fireClose f g ↔
      ((f.latitude - g.latitude) ^ 2 + (f.longitude - g.longitude) ^ 2) * 12321
        < (1 : ℚ) := by
  unfold fireClose
  rw [← lt_div_iff₀ (by norm_num : (0:ℝ) < 111)]
  rw [Real.sqrt_lt' (by norm_num : (0:ℝ) < 1 / 111)]
  rw [sq_abs, sq_abs]
  constructor
  · intro h
    have h2 : ((f.latitude : ℝ) - g.latitude) ^ 2 + ((f.longitude : ℝ) - g.longitude) ^ 2
        < 1 / 12321 := by
      calc ((f.latitude : ℝ) - g.latitude) ^ 2 + ((f.longitude : ℝ) - g.longitude) ^ 2
          < (1 / 111) ^ 2 := h
        _ = 1 / 12321 := by norm_num
    have := (mul_lt_mul_right (by norm_num : (0:ℝ) < 12321)).mpr h2
    rw [div_mul_cancel₀ (1 : ℝ) (by norm_num : (12321 : ℝ) ≠ 0)] at this
    exact_mod_cast this
  · intro h
    have h2 : (((f.latitude - g.latitude) ^ 2 + (f.longitude - g.longitude) ^ 2 : ℚ) : ℝ) * 12321
        < 1 := by exact_mod_cast h
    push_cast at h2
    nlinarith [h2]

instance (f g : FireRec) : Decidable (fireClose f g) :=
  decidable_of_iff _ (fireClose_iff f g).symm

/-- One iteration of the outer loop of `_deduplicate_fires`: scan the
accumulated `unique_fires` for the first detection closer than the
threshold; when found, replace it if the new fire is brighter
(`unique_fires.remove(u); unique_fires.append(fire)`), else drop the new
fire; when not found, append the new fire. -/
def dedupStep (unique_fires : List FireRec) (fire : FireRec) : List FireRec :=
  match unique_fires.find? (fun u => decide (fireClose fire u)) with
  | some u =>
    if u.brightness < fire.brightness then unique_fires.erase u ++ [fire]
    else unique_fires
  | none => unique_fires ++ [fire]

/-- `FIRMSService._deduplicate_fires` with its default 1.0 km threshold. -/
def _deduplicate_fires (fires : List FireRec) : List FireRec :=
  fires.foldl dedupStep []

/-- C5. Two detections within the 1.0 km planar-distance threshold (in
particular from different satellite sources) collapse to a single
event: the one with the higher brightness when brightnesses differ. -/
theorem C5_dedup_keeps_brighter (f₁ f₂ : FireRec)
    (hsrc : f₁.satellite_source ≠ f₂.satellite_source)
    (hclose : fireClose f₂ f₁) :
    _deduplicate_fires [f₁, f₂]
      = [if f₁.brightness < f₂.brightness then f₂ else f₁] := by
  have hc : decide (fireClose f₂ f₁) = true := decide_eq_true hclose
  simp only [_deduplicate_fires, List.foldl, dedupStep, List.find?, hc,
    List.find?_nil]
  split
  · simp
  · rfl

def c5fire₁ : FireRec :=
  { latitude := -27.5954, longitude := -48.548, brightness := 300, frp := 5,
    confidence := "high", acq_date := some "2025-10-01",
    satellite_source := "VIIRS_SNPP_NRT" }

def c5fire₂ : FireRec :=
  { latitude := -27.5953, longitude := -48.548, brightness := 320, frp := 5,
    confidence := "nominal", acq_date := some "2025-10-01",
    satellite_source := "MODIS_NRT" }

/-- Witness for C5: two synthetic detections 0.0001° apart (≈ 11 m) from
different sources collapse to the higher-brightness one. -/
theorem C5_dedup_witness :
    _deduplicate_fires [c5fire₁, c5fire₂] = [c5fire₂] := by
  have h := C5_dedup_keeps_brighter c5fire₁ c5fire₂ (by decide)
    ((fireClose_iff c5fire₂ c5fire₁).mpr (by norm_num [c5fire₁, c5fire₂]))
  rw [h, if_pos (by norm_num [c5fire₁, c5fire₂])]

/-- `FIRMSService.categorize_confidence` on the string read from the CSV
row: named codes first, then a numeric bucket (`int()` truncating toward
zero), else `("unknown", 0)`. -/
def categorize_confidence (confidence : String) : String × ℤ :=
  let lc := pyToLower confidence
  if lc = "high" ∨ lc = "h" then ("high", 85)
  else if lc = "nominal" ∨ lc = "n" then ("medium", 65)
  else if lc = "low" ∨ lc = "l" then ("low", 35)
  else
    match parseFloat confidence with
    | some cv =>
      if 80 ≤ cv then ("high", pyInt cv)
      else if 50 ≤ cv then ("medium", pyInt cv)
      else ("low", pyInt cv)
    | none => ("unknown", 0)

/-- Occurrence of `pat` as a contiguous sublist of `s`. -/
def listContainsSub (s pat : List Char) : Bool :=
  (List.range (s.length + 1)).any (fun i => pat.isPrefixOf (s.drop i))

/-- Python's substring test `pat in s`. -/
def strContainsSub (s pat : String) : Bool := listContainsSub s.data pat.data

/-- The two satellite sources queried by
`FIRMSService.get_fires_multiple_sources`. -/
def firms_sources : List String := ["VIIRS_SNPP_NRT", "MODIS_NRT"]

/-- `get_fires_multiple_sources` with the network abstracted as `fetch`
(the CSV text returned by the FIRMS area endpoint for a source): parse
each source's CSV, tag every row with its source, concatenate, and
deduplicate.  Returns the unique fires together with `count`. -/
def get_fires_multiple_sources (fetch : String → String) :
    List FireRec × ℕ :=
  let all_fires := firms_sources.flatMap (fun src =>
    (_parse_csv_response (fetch src)).map
      (fun f => { f with satellite_source := src }))
  let unique_fires := _deduplicate_fires all_fires
  (unique_fires, unique_fires.length)

/-- The `FireEvent` schema objects built by
`DataProcessor.get_fire_history_data`. -/
structure FireEvent where
  latitude : ℚ
  longitude : ℚ
  distance_km : ℚ
  brightness_kelvin : ℚ
  confidence : String
  confidence_percent : ℤ
  date : String
  satellite : String
deriving DecidableEq

/-- The `FireHistoryData` schema (the `last_update` wall-clock timestamp
is omitted from the embedding). -/
structure FireHistoryData where
  source : String
  period_days : ℕ
  active_fires_count : ℕ
  fires : List FireEvent
deriving DecidableEq

/-- Build one `FireEvent` from a deduplicated row (`data_processor.py`,
lines 376-400).  `distF` stands for `round(haversine_distance(lat, lon,
fire_lat, fire_lon), 2)` — the haversine distance is transcendental and
enters this function only as an opaque per-fire value, so it is
abstracted as a parameter; `nowDate` stands for
`datetime.utcnow().strftime("%Y-%m-%d")`. -/
def mkFireEvent (distF : ℚ → ℚ → ℚ) (nowDate : String) (f : FireRec) :
    FireEvent :=
  { latitude := f.latitude
    longitude := f.longitude
    distance_km := distF f.latitude f.longitude
    brightness_kelvin := f.brightness
    confidence := (categorize_confidence f.confidence).1
    confidence_percent := (categorize_confidence f.confidence).2
    date := f.acq_date.getD nowDate
    satellite := if strContainsSub f.satellite_source "VIIRS" then "VIIRS"
                 else "MODIS" }

/-- The ascending-`distance_km` comparison used by
`fire_events.sort(key=lambda x: x.distance_km)`. -/
def fireEventLe (a b : FireEvent) : Bool := decide (a.distance_km ≤ b.distance_km)

/-- The tail of `DataProcessor.get_fire_history_data` (lines 365-411)
applied to the deduplicated fires of `get_fires_multiple_sources`: an
empty list yields a zero-count record (not `None`); otherwise build the
events, set `active_fires_count = len(fire_events)`, sort by distance
and truncate the `fires` list to the 20 closest. -/
def fireHistoryFromFires (distF : ℚ → ℚ → ℚ) (nowDate : String)
    (fires : List FireRec) : Option FireHistoryData :=
  if fires = [] then
    some { source := "NASA FIRMS", period_days := 7,
           active_fires_count := 0, fires := [] }
  else
    let fire_events := fires.map (mkFireEvent distF nowDate)
    some { source := "NASA FIRMS", period_days := 7,
           active_fires_count := fire_events.length,
           fires := (fire_events.mergeSort fireEventLe).take 20 }

/-- `DataProcessor.get_fire_history_data`, network abstracted: fetch the
two satellite CSVs, merge, deduplicate, and assemble the schema record.
The `except` branch that returns `None` on an exception has no
counterpart in this pure model. -/
def get_fire_history_data (distF : ℚ → ℚ → ℚ) (nowDate : String)
    (fetch : String → String) : Option FireHistoryData :=
  fireHistoryFromFires distF nowDate (get_fires_multiple_sources fetch).1

/-- Truthiness of the fetch result as the router sees it: a pydantic
model instance is always truthy, so only `None` is falsy. -/
def pydanticTruthy (r : Option FireHistoryData) : Bool := r.isSome

/-- The router outcome (`environmental.py`, lines 74-87) for a fire
history fetch that returns without raising. -/
def fireRouterOutcome (r : Option FireHistoryData) : FetchOutcome :=
  if pydanticTruthy r then .success else .empty

/-- C4 counterexample.  With every queried satellite source answering an
empty CSV, `get_fire_history_data` does NOT produce `None` plus one
warning: it returns a populated `FireHistoryData` with zero fires, which
the router's truthiness test counts as a successful source with no
warning appended. -/
theorem C4_empty_csv_counterexample :
    get_fire_history_data (fun _ _ => 0) "2025-10-12" (fun _ => "")
      = some { source := "NASA FIRMS", period_days := 7,
               active_fires_count := 0, fires := [] } ∧
    fetchSource "Fire history data unavailable" "Fire history data error: "
        initMeta
        (fireRouterOutcome
          (get_fire_history_data (fun _ _ => 0) "2025-10-12" (fun _ => "")))
      = ⟨1, 1, []⟩ := by
  exact ⟨by decide, by decide⟩

/-- C4 amended.  When every queried satellite source yields no usable
CSV data, `get_fire_history_data` returns a `FireHistoryData` with
`active_fires_count = 0` and an empty fires list — not `None` — and the
aggregation endpoint therefore counts the fire-history source as
successful and appends no warning. -/
theorem C4_empty_sources_zero_record (distF : ℚ → ℚ → ℚ) (nowDate : String)
    (fetch : String → String)
    (h : ∀ src ∈ firms_sources, _parse_csv_response (fetch src) = []) :
    get_fire_history_data distF nowDate fetch
      = some { source := "NASA FIRMS", period_days := 7,
               active_fires_count := 0, fires := [] } ∧
    ∀ m : RespMeta,
      (fetchSource "Fire history data unavailable" "Fire history data error: "
          m (fireRouterOutcome (get_fire_history_data distF nowDate fetch))).successful
        = m.successful + 1 ∧
      (fetchSource "Fire history data unavailable" "Fire history data error: "
          m (fireRouterOutcome (get_fire_history_data distF nowDate fetch))).warnings
        = m.warnings := by
  have h1 := h "VIIRS_SNPP_NRT" (by simp [firms_sources])
  have h2 := h "MODIS_NRT" (by simp [firms_sources])
  have hres : get_fire_history_data distF nowDate fetch
      = some { source := "NASA FIRMS", period_days := 7,
               active_fires_count := 0, fires := [] } := by
    simp [get_fire_history_data, get_fires_multiple_sources, firms_sources,
      h1, h2, _deduplicate_fires, fireHistoryFromFires]
  refine ⟨hres, fun m => ?_⟩
  rw [hres]
  exact ⟨rfl, rfl⟩

/-- Witness for C4's amended statement at the all-empty fetch. -/
theorem C4_empty_sources_witness :
    get_fire_history_data (fun _ _ => 1) "2025-01-01" (fun _ => "\n")
      = some { source := "NASA FIRMS", period_days := 7,
               active_fires_count := 0, fires := [] } :=
  (C4_empty_sources_zero_record (fun _ _ => 1) "2025-01-01" (fun _ => "\n")
    (by intro src hsrc
        show _parse_csv_response "\n" = []
        decide)).1

theorem fireEventLe_trans (a b c : FireEvent) (h₁ : fireEventLe a b = true)
    (h₂ : fireEventLe b c = true) : fireEventLe a c = true := by
  simp only [fireEventLe, decide_eq_true_eq] at *
  exact le_trans h₁ h₂

theorem fireEventLe_total (a b : FireEvent) :
    (fireEventLe a b || fireEventLe b a) = true := by
  simp only [fireEventLe, Bool.or_eq_true, decide_eq_true_eq]
  exact le_total a.distance_km b.distance_km

/-- C6 counterexample.  With 21 deduplicated fires, the returned record
has `active_fires_count = 21` while the truncated `fires` list holds
only 20 events: the count is taken before truncation, so it does not
equal the length of the final list. -/
theorem C6_count_precedes_truncation :
    ∃ fh, fireHistoryFromFires (fun la _ => la) "2025-10-12"
        ((List.range 21).map (fun (i : ℕ) =>
          { latitude := (i : ℚ), longitude := 0, brightness := 300, frp := 0,
            confidence := "high", acq_date := some "2025-10-01",
            satellite_source := "VIIRS_SNPP_NRT" })) = some fh ∧
      fh.active_fires_count = 21 ∧ fh.fires.length = 20 := by
  rw [fireHistoryFromFires, if_neg (by decide)]
  refine ⟨_, rfl, ?_, ?_⟩
  · simp only [List.length_map, List.length_range]
  · simp only [List.length_take, List.length_mergeSort, List.length_map,
      List.length_range]
    norm_num

/-- C6 amended.  For every non-empty deduplicated fire list, the
returned `FireHistoryData` has its fires sorted ascending by
`distance_km`, holds at most 20 events which are the closest ones (every
retained event is at most as far as every omitted one), and its
`active_fires_count` equals the total number of deduplicated events
before truncation (hence not the length of the truncated list when more
than 20 remain). -/
theorem C6_sorted_truncated_counted (distF : ℚ → ℚ → ℚ) (nowDate : String)
    (fires : List FireRec) (h : fires ≠ []) :
    ∃ fh, fireHistoryFromFires distF nowDate fires = some fh ∧
      fh.fires.Pairwise (fun a b => a.distance_km ≤ b.distance_km) ∧
      fh.fires.length ≤ 20 ∧
      fh.active_fires_count = fires.length ∧
      ∃ rest : List FireEvent,
        (fires.map (mkFireEvent distF nowDate)).Perm (fh.fires ++ rest) ∧
        ∀ a ∈ fh.fires, ∀ b ∈ rest, a.distance_km ≤ b.distance_km := by
  rw [fireHistoryFromFires, if_neg h]
  refine ⟨_, rfl, ?_, ?_, ?_, ?_⟩
  · have hs := List.sorted_mergeSort fireEventLe_trans fireEventLe_total
      (fires.map (mkFireEvent distF nowDate))
    have ht := List.Pairwise.sublist (List.take_sublist 20
      ((fires.map (mkFireEvent distF nowDate)).mergeSort fireEventLe)) hs
    exact ht.imp (fun hab => by
      simpa [fireEventLe, decide_eq_true_eq] using hab)
  · simpa [List.length_take] using min_le_left 20 _
  · simp
  · refine ⟨((fires.map (mkFireEvent distF nowDate)).mergeSort fireEventLe).drop 20,
      ?_, ?_⟩
    · have hperm := (List.mergeSort_perm (fires.map (mkFireEvent distF nowDate))
        fireEventLe).symm
      simpa [List.take_append_drop] using hperm
    · have hs := List.sorted_mergeSort fireEventLe_trans fireEventLe_total
        (fires.map (mkFireEvent distF nowDate))
      rw [← List.take_append_drop 20
        ((fires.map (mkFireEvent distF nowDate)).mergeSort fireEventLe)] at hs
      have := (List.pairwise_append.mp hs).2.2
      intro a ha b hb
      simpa [fireEventLe, decide_eq_true_eq] using this a ha b hb

/-- Witness for C6's amended statement on a one-element fire list. -/
theorem C6_sorted_truncated_witness :
    ∃ fh, fireHistoryFromFires (fun _ _ => 1) "2025-10-12" [c5fire₁] = some fh ∧
      fh.fires.Pairwise (fun a b => a.distance_km ≤ b.distance_km) ∧
      fh.fires.length ≤ 20 ∧
      fh.active_fires_count = [c5fire₁].length ∧
      ∃ rest : List FireEvent,
        ([c5fire₁].map (mkFireEvent (fun _ _ => 1) "2025-10-12")).Perm
          (fh.fires ++ rest) ∧
        ∀ a ∈ fh.fires, ∀ b ∈ rest, a.distance_km ≤ b.distance_km :=
  C6_sorted_truncated_counted (fun _ _ => 1) "2025-10-12" [c5fire₁] (by decide)

/-! ### Earthdata authentication (`app/services/earthdata.py`)

The class-level state of `EarthdataService` is process-wide: the
attempted-methods set, the success flag, the shared session and the
backoff deadline.  `earthaccess.login` (the network) is abstracted as an
oracle mapping the chosen method to its outcome; `datetime.utcnow()` is
abstracted as a natural number of minutes. -/

/-- The three authentication methods, in preference order
(`token → env(user/pass) → netrc`). -/
inductive AuthMethod where
  | token
  | envCreds
  | netrc
deriving DecidableEq

/-- Outcome of one `earthaccess.login` call: a session that reports
`authenticated` (or is truthy), a session that does not, or a raised
exception whose message may signal a locked account. -/
inductive LoginOutcome where
  | ok
  | notAuth
  | errorLocked
  | errorOther
deriving DecidableEq

/-- The class-level (process-wide) state of `EarthdataService`. -/
structure AuthState where
  auth_attempted : Bool
  auth_successful : Bool
  shared_auth : Bool
  attempted_methods : List AuthMethod
  backoff_until : Option ℕ
deriving DecidableEq

/-- The state at process start. -/
def initAuthState : AuthState := ⟨false, false, false, [], none⟩

/-- `set.add`: idempotent insertion into the attempted-methods set. -/
def addMethod (s : List AuthMethod) (m : AuthMethod) : List AuthMethod :=
  if m ∈ s then s else s ++ [m]

/-- Which credential material is configured (settings / environment /
home netrc file) — immutable for the process lifetime. -/
structure CredsEnv where
  token_available : Bool
  env_available : Bool
  netrc_available : Bool

/-- `EarthdataService._choose_next_auth_method` (lines 56-80): nothing
when already authenticated; otherwise the first method that has
credential material and has not been attempted; `none` when no method is
left. -/
def _choose_next_auth_method (s : AuthState) (c : CredsEnv) :
    Option AuthMethod :=
  if s.auth_successful then none
  else if c.token_available ∧ AuthMethod.token ∉ s.attempted_methods then
    some .token
  else if c.env_available ∧ AuthMethod.envCreds ∉ s.attempted_methods then
    some .envCreds
  else if c.netrc_available ∧ AuthMethod.netrc ∉ s.attempted_methods then
    some .netrc
  else none

/-- `EarthdataService._authenticate_once` (lines 82-146): attempt the
method exactly once, record it as attempted, and on any failure set a
backoff window — 10 minutes when the error signals a locked account,
2 minutes otherwise.  Returns the new class state and the instance's
`authenticated` flag. -/
def _authenticate_once (now : ℕ) (login : AuthMethod → LoginOutcome)
    (s : AuthState) (m : AuthMethod) : AuthState × Bool :=
  let s0 : AuthState := { s with auth_attempted := true }
  match login m with
  | .ok =>
    ({ s0 with attempted_methods := addMethod s0.attempted_methods m,
               auth_successful := true, shared_auth := true }, true)
  | .notAuth =>
    ({ s0 with attempted_methods := addMethod s0.attempted_methods m,
               auth_successful := false, shared_auth := false,
               backoff_until := some (now + 2) }, false)
  | .errorLocked =>
    ({ s0 with attempted_methods := addMethod s0.attempted_methods m,
               auth_successful := false, shared_auth := false,
               backoff_until := some (now + 10) }, false)
  | .errorOther =>
    ({ s0 with attempted_methods := addMethod s0.attempted_methods m,
               auth_successful := false, shared_auth := false,
               backoff_until := some (now + 2) }, false)

/-- The backoff test of `ensure_authenticated` (line 175):
`_backoff_until and utcnow() < _backoff_until`. -/
def inBackoff (s : AuthState) (now : ℕ) : Bool :=
  match s.backoff_until with
  | some b => decide (now < b)
  | none => false

/-- Result of one `ensure_authenticated` call: the returned boolean, the
class state afterwards, and the methods attempted during the call. -/
structure EnsureResult where
  ok : Bool
  state : AuthState
  attempts : List AuthMethod
deriving DecidableEq

/-- `EarthdataService.ensure_authenticated` (lines 163-188): return true
immediately when globally authenticated; return false inside the backoff
window without attempting anything; otherwise pick the next untried
available method and attempt it exactly once (false with no attempt when
no method is left). -/
def ensure_authenticated (now : ℕ) (login : AuthMethod → LoginOutcome)
    (s : AuthState) (c : CredsEnv) : EnsureResult :=
  if s.auth_successful then ⟨true, s, []⟩
  else if inBackoff s now then ⟨false, s, []⟩
  else
    match _choose_next_auth_method s c with
    | none => ⟨false, s, []⟩
    | some m =>
      let r := _authenticate_once now login s m
      ⟨r.2, r.1, [m]⟩

/-- A process lifetime: a sequence of `ensure_authenticated` calls, each
with its own clock reading and login outcome oracle.  Returns the final
class state and the concatenated list of attempted methods. -/
def runCalls (c : CredsEnv) :
    AuthState → List (ℕ × (AuthMethod → LoginOutcome)) →
    AuthState × List AuthMethod
  | s, [] => (s, [])
  | s, (now, login) :: rest =>
    let r := ensure_authenticated now login s c
    let rec2 := runCalls c r.state rest
    (rec2.1, r.attempts ++ rec2.2)

theorem choose_mem_not_attempted (s : AuthState) (c : CredsEnv)
    (m : AuthMethod) (h : _choose_next_auth_method s c = some m) :
    m ∉ s.attempted_methods := by
  unfold _choose_next_auth_method at h
  split_ifs at h with h1 h2 h3 h4 <;> simp_all

theorem authenticate_once_attempted (now : ℕ)
    (login : AuthMethod → LoginOutcome) (s : AuthState) (m : AuthMethod) :
    ((_authenticate_once now login s m).1).attempted_methods
      = addMethod s.attempted_methods m := by
  unfold _authenticate_once
  cases login m <;> rfl

theorem mem_addMethod_self (s : List AuthMethod) (m : AuthMethod) :
    m ∈ addMethod s m := by
  unfold addMethod
  split_ifs with h
  · exact h
  · simp

theorem mem_addMethod_of_mem (s : List AuthMethod) (m a : AuthMethod)
    (h : a ∈ s) : a ∈ addMethod s m := by
  unfold addMethod
  split_ifs with hm
  · exact h
  · simp [h]

/-- One `ensure_authenticated` call only attempts methods that were not
yet in the attempted set, and the attempted set only grows, containing
every method attempted by the call. -/
theorem ensure_step (now : ℕ) (login : AuthMethod → LoginOutcome)
    (s : AuthState) (c : CredsEnv) :
    (∀ m ∈ (ensure_authenticated now login s c).attempts,
        m ∉ s.attempted_methods) ∧
    (∀ a, a ∈ s.attempted_methods ∨
          a ∈ (ensure_authenticated now login s c).attempts →
        a ∈ ((ensure_authenticated now login s c).state).attempted_methods) := by
  unfold ensure_authenticated
  split_ifs with h1 h2
  · exact ⟨by simp, by intro a ha; simpa using ha.resolve_right (by simp)⟩
  · exact ⟨by simp, by intro a ha; simpa using ha.resolve_right (by simp)⟩
  · cases hc : _choose_next_auth_method s c with
    | none =>
      exact ⟨by simp, by intro a ha; simpa using ha.resolve_right (by simp)⟩
    | some m =>
      refine ⟨?_, ?_⟩
      · intro a ha
        simp only [List.mem_singleton] at ha
        subst ha
        exact choose_mem_not_attempted s c a hc
      · intro a ha
        simp only [authenticate_once_attempted]
        rcases ha with ha | ha
        · exact mem_addMethod_of_mem _ _ _ ha
        · simp only [List.mem_singleton] at ha
          subst ha
          exact mem_addMethod_self _ _

theorem ensure_attempts_nodup (now : ℕ) (login : AuthMethod → LoginOutcome)
    (s : AuthState) (c : CredsEnv) :
    (ensure_authenticated now login s c).attempts.Nodup := by
  unfold ensure_authenticated
  split_ifs
  · simp
  · simp
  · cases _choose_next_auth_method s c <;> simp

theorem runCalls_attempts_mono (c : CredsEnv)
    (calls : List (ℕ × (AuthMethod → LoginOutcome))) :
    ∀ (s : AuthState) (m : AuthMethod), m ∈ s.attempted_methods →
      m ∈ ((runCalls c s calls).1).attempted_methods := by
  induction calls with
  | nil => intro s m h; simpa [runCalls] using h
  | cons hd tl ih =>
    intro s m h
    obtain ⟨now, login⟩ := hd
    simp only [runCalls]
    exact ih _ m ((ensure_step now login s c).2 m (Or.inl h))

/-- Over any process lifetime the attempted-methods trace has no
duplicates, every traced method is absent from the starting attempted
set and present in the final one. -/
theorem runCalls_nodup (c : CredsEnv)
    (calls : List (ℕ × (AuthMethod → LoginOutcome))) :
    ∀ s : AuthState,
      (runCalls c s calls).2.Nodup ∧
      (∀ m ∈ (runCalls c s calls).2,
        m ∉ s.attempted_methods ∧ m ∈ ((runCalls c s calls).1).attempted_methods) := by
  induction calls with
  | nil => intro s; simp [runCalls]
  | cons hd tl ih =>
    intro s
    obtain ⟨now, login⟩ := hd
    have hstep := ensure_step now login s c
    have ihr := ih (ensure_authenticated now login s c).state
    simp only [runCalls] at *
    constructor
    · rw [List.nodup_append]
      refine ⟨?_, ihr.1, ?_⟩
      · exact ensure_attempts_nodup now login s c
      · intro a ha hb
        exact (ihr.2 a hb).1 (hstep.2 a (Or.inr ha))
    · intro m hm
      rcases List.mem_append.mp hm with hm1 | hm2
      · refine ⟨hstep.1 m hm1, ?_⟩
        · have hin := hstep.2 m (Or.inr hm1)
          exact runCalls_attempts_mono c tl _ m hin
      · refine ⟨?_, (ihr.2 m hm2).2⟩
        intro hcon
        exact (ihr.2 m hm2).1 (hstep.2 m (Or.inl hcon))

/-- C2. From the process-start state, with token and user/password
credentials both available and the token attempt failing: the first
`ensure_authenticated` call returns false having attempted exactly the
token method; a second call whose time lies inside the recorded 2-minute
backoff window returns false attempting nothing (in particular not
user/password); and over any sequence of `ensure_authenticated` calls
the attempted-methods trace has no duplicates, so each method is
attempted at most once per process lifetime. -/
theorem C2_backoff_single_attempt (now₀ now₁ : ℕ) (c : CredsEnv)
    (login : AuthMethod → LoginOutcome)
    (htok : c.token_available = true) (henv : c.env_available = true)
    (hfail : login .token = .notAuth) (hwin : now₁ < now₀ + 2) :
    (ensure_authenticated now₀ login initAuthState c).ok = false ∧
    (ensure_authenticated now₀ login initAuthState c).attempts = [.token] ∧
    ensure_authenticated now₁ login
        (ensure_authenticated now₀ login initAuthState c).state c
      = ⟨false, (ensure_authenticated now₀ login initAuthState c).state, []⟩ ∧
    ∀ calls : List (ℕ × (AuthMethod → LoginOutcome)),
      (runCalls c initAuthState calls).2.Nodup ∧
      ∀ m : AuthMethod, (runCalls c initAuthState calls).2.count m ≤ 1 := by
  have h1 : ensure_authenticated now₀ login initAuthState c
      = ⟨false, ⟨true, false, false, [.token], some (now₀ + 2)⟩, [.token]⟩ := by
    simp [ensure_authenticated, initAuthState, inBackoff,
      _choose_next_auth_method, htok, _authenticate_once, hfail, addMethod]
  refine ⟨by rw [h1], by rw [h1], ?_, fun calls =>
    ⟨(runCalls_nodup c calls initAuthState).1, fun m =>
      List.nodup_iff_count_le_one.mp (runCalls_nodup c calls initAuthState).1 m⟩⟩
  rw [h1]
  simp [ensure_authenticated, inBackoff, hwin]

def c2creds : CredsEnv := ⟨true, true, false⟩

def c2login : AuthMethod → LoginOutcome := fun _ => .notAuth

/-- Witness for C2 at a concrete clock and failing-login oracle. -/
theorem C2_backoff_witness :
    (ensure_authenticated 0 c2login initAuthState c2creds).ok = false ∧
    (ensure_authenticated 0 c2login initAuthState c2creds).attempts = [.token] ∧
    ensure_authenticated 1 c2login
        (ensure_authenticated 0 c2login initAuthState c2creds).state c2creds
      = ⟨false, (ensure_authenticated 0 c2login initAuthState c2creds).state, []⟩ ∧
    ∀ calls : List (ℕ × (AuthMethod → LoginOutcome)),
      (runCalls c2creds initAuthState calls).2.Nodup ∧
      ∀ m : AuthMethod, (runCalls c2creds initAuthState calls).2.count m ≤ 1 :=
  C2_backoff_single_attempt 0 1 c2creds c2login rfl rfl rfl (by norm_num)

/-! ### MERRA-2 auth guard versus IMERG auth guard (C10) -/

/-- The instance flag set by `EarthdataService.__init__` (line 52):
`self.authenticated = bool(EarthdataService._auth_successful)`. -/
def instance_authenticated_on_init (s : AuthState) : Bool := s.auth_successful

/-- Whether a data method proceeds past its authentication guard to the
network search, or returns `None` immediately. -/
inductive GuardResult where
  | unavailable
  | proceed
deriving DecidableEq

/-- The guard of `get_merra2_data` (lines 458-460): it only reads the
instance's cached `authenticated` flag — it never calls
`ensure_authenticated`, so it changes no state and attempts no method. -/
def get_merra2_data_auth_guard (s : AuthState) :
    GuardResult × AuthState × List AuthMethod :=
  if instance_authenticated_on_init s then (.proceed, s, [])
  else (.unavailable, s, [])

/-- The guard of `get_imerg_data` (lines 343-345), which does call
`ensure_authenticated`. -/
def get_imerg_data_auth_guard (now : ℕ) (login : AuthMethod → LoginOutcome)
    (s : AuthState) (c : CredsEnv) :
    GuardResult × AuthState × List AuthMethod :=
  let r := ensure_authenticated now login s c
  (if r.ok then .proceed else .unavailable, r.state, r.attempts)

/-- C10. On a service instance created while the shared session is not
established, `get_merra2_data` returns `None` at its guard without
attempting any login method — regardless of the configured credentials —
and its guard never mutates the authentication state or attempts a
method; by contrast `get_imerg_data` from the process-start state with a
valid token does authenticate. -/
theorem C10_merra2_reads_cached_flag_only (s : AuthState) (c : CredsEnv)
    (now : ℕ) (login : AuthMethod → LoginOutcome)
    (hns : s.auth_successful = false)
    (htok : c.token_available = true) (hok : login .token = .ok) :
    get_merra2_data_auth_guard s = (.unavailable, s, []) ∧
    (∀ s₂ : AuthState, (get_merra2_data_auth_guard s₂).2 = (s₂, [])) ∧
    (get_imerg_data_auth_guard now login initAuthState c).1 = .proceed ∧
    (get_imerg_data_auth_guard now login initAuthState c).2.2 = [.token] := by
  refine ⟨?_, ?_, ?_, ?_⟩
  · simp [get_merra2_data_auth_guard, instance_authenticated_on_init, hns]
  · intro s₂
    unfold get_merra2_data_auth_guard
    split <;> rfl
  · simp [get_imerg_data_auth_guard, ensure_authenticated, initAuthState,
      inBackoff, _choose_next_auth_method, htok, _authenticate_once, hok]
  · simp [get_imerg_data_auth_guard, ensure_authenticated, initAuthState,
      inBackoff, _choose_next_auth_method, htok, _authenticate_once, hok]

def c10creds : CredsEnv := ⟨true, false, false⟩

def c10login : AuthMethod → LoginOutcome := fun _ => .ok

/-- Witness for C10 at the process-start state with a working token. -/
theorem C10_merra2_guard_witness :
    get_merra2_data_auth_guard initAuthState = (.unavailable, initAuthState, []) ∧
    (∀ s₂ : AuthState, (get_merra2_data_auth_guard s₂).2 = (s₂, [])) ∧
    (get_imerg_data_auth_guard 0 c10login initAuthState c10creds).1 = .proceed ∧
    (get_imerg_data_auth_guard 0 c10login initAuthState c10creds).2.2 = [.token] :=
  C10_merra2_reads_cached_flag_only initAuthState c10creds 0 c10login rfl rfl rfl

/-! ### Bounding box (`app/utils/geo_utils.py`, lines 47-82) -/

/-- Python's `math.radians(d)`. -/
noncomputable def pyRadians (d : ℝ) : ℝ := d * Real.pi / 180

/-- The divisor of the longitude offset in `calculate_bounding_box`:
`111.0 * abs(math.cos(math.radians(latitude)))`.  The code applies no
floor to this quantity. -/
noncomputable def bboxLonDivisor (latitude : ℝ) : ℝ :=
  111.0 * |Real.cos (pyRadians latitude)|

/-- `geo_utils.calculate_bounding_box`, returning
`(min_lon, min_lat, max_lon, max_lat)` with the final clamping to the
valid latitude/longitude ranges.  (Lean's real division is total, with
`x / 0 = 0`, so the pole case is well-defined here; CPython avoids the
`ZeroDivisionError` only because `math.cos(math.radians(90))` rounds to
a nonzero float.) -/
noncomputable def calculate_bounding_box (latitude longitude radius_meters : ℝ) :
    ℝ × ℝ × ℝ × ℝ :=
  let radius_km := radius_meters / 1000.0
  let lat_offset := radius_km / 111.0
  let lon_offset := radius_km / bboxLonDivisor latitude
  let min_lat := max (-90) (latitude - lat_offset)
  let max_lat := min 90 (latitude + lat_offset)
  let min_lon := max (-180) (longitude - lon_offset)
  let max_lon := min 180 (longitude + lon_offset)
  (min_lon, min_lat, max_lon, max_lat)

/-- C3 counterexample.  The longitude divisor is not floored away from
zero: at latitude 90 (a valid input) it is exactly 0, so in exact
arithmetic the longitude-offset computation is a division by zero — the
claimed guard does not exist in the code. -/
theorem C3_divisor_vanishes_at_pole :
    bboxLonDivisor 90 = 0 ∧ (-90 : ℝ) ≤ 90 ∧ (90 : ℝ) ≤ 90 := by
  refine ⟨?_, by norm_num, le_refl _⟩
  unfold bboxLonDivisor pyRadians
  rw [show (90 : ℝ) * Real.pi / 180 = Real.pi / 2 by ring,
    Real.cos_pi_div_two]
  simp

/-- C3 amended.  For every latitude in [-90, 90], longitude in
[-180, 180] and radius in [100, 50000], `calculate_bounding_box` returns
a well-defined quadruple whose latitudes are clamped to [-90, 90] and
longitudes to [-180, 180], with `min ≤ max` in both coordinates.  There
is, however, no floor on the divisor: the computation avoids a division
by zero at the poles only through floating-point rounding (the divisor
is exactly zero at latitude ±90 in real arithmetic, see the
counterexample). -/
theorem C3_bounding_box_clamped (lat lon r : ℝ)
    (hlat : -90 ≤ lat ∧ lat ≤ 90) (hlon : -180 ≤ lon ∧ lon ≤ 180)
    (hr : 100 ≤ r ∧ r ≤ 50000) :
    -180 ≤ (calculate_bounding_box lat lon r).1 ∧
    (calculate_bounding_box lat lon r).1 ≤ (calculate_bounding_box lat lon r).2.2.1 ∧
    (calculate_bounding_box lat lon r).2.2.1 ≤ 180 ∧
    -90 ≤ (calculate_bounding_box lat lon r).2.1 ∧
    (calculate_bounding_box lat lon r).2.1 ≤ (calculate_bounding_box lat lon r).2.2.2 ∧
    (calculate_bounding_box lat lon r).2.2.2 ≤ 90 := by
  obtain ⟨hlat1, hlat2⟩ := hlat
  obtain ⟨hlon1, hlon2⟩ := hlon
  obtain ⟨hr1, hr2⟩ := hr
  have hkm : 0 ≤ r / 1000.0 := by positivity
  have hlatoff : 0 ≤ r / 1000.0 / 111.0 := by positivity
  have hdiv : 0 ≤ bboxLonDivisor lat := by
    unfold bboxLonDivisor
    positivity
  have hlonoff : 0 ≤ r / 1000.0 / bboxLonDivisor lat := div_nonneg hkm hdiv
  simp only [calculate_bounding_box]
  refine ⟨le_max_left _ _, ?_, min_le_left _ _, le_max_left _ _, ?_,
    min_le_left _ _⟩
  · apply le_min
    · exact max_le (by norm_num) (by linarith)
    · exact max_le (by linarith) (by linarith)
  · apply le_min
    · exact max_le (by norm_num) (by linarith)
    · exact max_le (by linarith) (by linarith)

/-- Witness for C3's amended statement at a concrete query. -/
theorem C3_bounding_box_witness :
    -180 ≤ (calculate_bounding_box (-27.5954) (-48.548) 5000).1 ∧
    (calculate_bounding_box (-27.5954) (-48.548) 5000).1
      ≤ (calculate_bounding_box (-27.5954) (-48.548) 5000).2.2.1 ∧
    (calculate_bounding_box (-27.5954) (-48.548) 5000).2.2.1 ≤ 180 ∧
    -90 ≤ (calculate_bounding_box (-27.5954) (-48.548) 5000).2.1 ∧
    (calculate_bounding_box (-27.5954) (-48.548) 5000).2.1
      ≤ (calculate_bounding_box (-27.5954) (-48.548) 5000).2.2.2 ∧
    (calculate_bounding_box (-27.5954) (-48.548) 5000).2.2.2 ≤ 90 :=
  C3_bounding_box_clamped (-27.5954) (-48.548) 5000
    (by norm_num) (by norm_num) (by norm_num)

/-! ### Wind speed and direction (C8)

`EarthdataService.get_merra2_data` (lines 548-553) derives wind inline:
`wind_speed_ms = sqrt(u**2 + v**2)` and
`wind_direction_deg = (degrees(atan2(u, v)) + 180) % 360`, while
`geo_utils.wind_components_to_speed_direction` (lines 85-108) computes
`speed = sqrt(u**2 + v**2)` and
`meteorological_direction = (270 - degrees(atan2(v, u))) % 360`. -/

/-- Python's `math.atan2(y, x)`: the argument of the complex number
`x + y·i`, in (−π, π] (and 0 at the origin, like CPython). -/
noncomputable def atan2 (y x : ℝ) : ℝ := Complex.arg ((x : ℂ) + y * Complex.I)

/-- Python's `math.degrees`. -/
noncomputable def pyDegrees (r : ℝ) : ℝ := r * 180 / Real.pi

/-- Python's float modulo `x % 360.0`: the representative of `x` in
`[0, 360)`. -/
noncomputable def pyMod360 (x : ℝ) : ℝ :=
  toIcoMod (show (0:ℝ) < 360 by norm_num) 0 x

/-- The inline wind direction of `get_merra2_data`:
`(degrees(atan2(u, v)) + 180) % 360`. -/
noncomputable def merra2_wind_direction_deg (u v : ℝ) : ℝ :=
  pyMod360 (pyDegrees (atan2 u v) + 180)

/-- The inline wind speed of `get_merra2_data`: `sqrt(u² + v²)`. -/
noncomputable def merra2_wind_speed_ms (u v : ℝ) : ℝ :=
  Real.sqrt (u ^ 2 + v ^ 2)

/-- `geo_utils.wind_components_to_speed_direction`: speed and
meteorological direction `(270 - degrees(atan2(v, u))) % 360`. -/
noncomputable def wind_components_to_speed_direction (u v : ℝ) : ℝ × ℝ :=
  let speed := Real.sqrt (u ^ 2 + v ^ 2)
  let direction_deg := pyDegrees (atan2 v u)
  let meteorological_direction := pyMod360 (270 - direction_deg)
  (speed, meteorological_direction)

/-- C8. For every wind-component pair other than (0, 0), the adapter's
inline direction `(degrees(atan2(u, v)) + 180) mod 360` equals GeoMath's
`(270 - degrees(atan2(v, u))) mod 360`, and both compute the same speed
`sqrt(u² + v²)`. -/
theorem C8_wind_direction_agreement (u v : ℝ)
    (h : (u, v) ≠ ((0 : ℝ), (0 : ℝ))) :
    merra2_wind_direction_deg u v = (wind_components_to_speed_direction u v).2 ∧
    merra2_wind_speed_ms u v = (wind_components_to_speed_direction u v).1 := by
  have h2 : ¬(u = 0 ∧ v = 0) := by
    intro hc
    exact h (by rw [hc.1, hc.2])
  refine ⟨?_, rfl⟩
  show pyMod360 (pyDegrees (atan2 u v) + 180) = pyMod360 (270 - pyDegrees (atan2 v u))
  have hπ : (Real.pi : ℝ) ≠ 0 := Real.pi_ne_zero
  set z : ℂ := (u : ℂ) + v * Complex.I with hzdef
  have hz : z ≠ 0 := by
    intro h0
    apply h2
    constructor
    · have := congrArg Complex.re h0
      simpa [hzdef] using this
    · have := congrArg Complex.im h0
      simpa [hzdef] using this
  have hconj : (starRingEnd ℂ) z ≠ 0 := by
    intro h0
    apply hz
    simpa using congrArg (starRingEnd ℂ) h0
  have hw : (v : ℂ) + u * Complex.I = Complex.I * (starRingEnd ℂ) z := by
    apply Complex.ext <;> simp [hzdef]
  have hangle : (Complex.arg ((v : ℂ) + u * Complex.I) : Real.Angle)
      = ((Real.pi / 2 - Complex.arg z : ℝ) : Real.Angle) := by
    rw [hw, Complex.arg_mul_coe_angle Complex.I_ne_zero hconj,
      Complex.arg_conj_coe_angle, Complex.arg_I, Real.Angle.coe_sub]
    rfl
  obtain ⟨k, hk⟩ := Real.Angle.angle_eq_iff_two_pi_dvd_sub.mp hangle
  unfold pyMod360
  rw [toIcoMod_eq_toIcoMod]
  refine ⟨-k, ?_⟩
  rw [zsmul_eq_mul]
  unfold pyDegrees atan2
  push_cast
  have harg : Complex.arg ((v : ℂ) + u * Complex.I)
      - (Real.pi / 2 - Complex.arg ((u : ℂ) + v * Complex.I)) = 2 * Real.pi * k := by
    simpa [hzdef] using hk
  field_simp
  linear_combination (-180 : ℝ) * harg

/-- Witness for C8 at the concrete pair (u, v) = (0, 1). -/
theorem C8_wind_direction_witness :
    merra2_wind_direction_deg 0 1 = (wind_components_to_speed_direction 0 1).2 ∧
    merra2_wind_speed_ms 0 1 = (wind_components_to_speed_direction 0 1).1 :=
  C8_wind_direction_agreement 0 1 (by norm_num)

end SafeoutAPI
